import Mathlib

/-!
Verification development for the semantic-layer-agent repository.

The file shallowly embeds the parts of the repository that the checked
properties talk about:

* the Data API request handlers in `jira-ai-poc/vulcansql/jira-api.js`
  (limit clamping and the search-query guard);
* the analytics view `fact_issue_status_changes` from
  `jira-ai-poc/sql/02_analytics_views.sql`;
* the query-resolution agent core (retriever, validator/repairer,
  executor retry policy, renderer, wire serialization).  The Python agent
  sources are not part of the checked tree, so those components are
  modelled from the specification, as marked in their doc comments.
-/

namespace SemanticAgent

/-! ## JavaScript-style integer parsing

`parseIntJS` models JavaScript `parseInt(s)` (base 10): skip leading
spaces, accept an optional sign, then read the maximal run of leading
decimal digits; if that run is empty the result is NaN, modelled as
`none`. -/

/-- Numeric value of a list of decimal digit characters. -/
def digitsToNat (ds : List Char) : Nat :=
  ds.foldl (fun a c => a * 10 + (c.toNat - 48)) 0

/-- JavaScript `parseInt` in base 10, `none` standing for NaN. -/
def parseIntJS (s : String) : Option Int :=
  let cs := s.data.dropWhile (fun c => c = ' ')
  let signAndRest : Bool × List Char :=
    match cs with
    | '-' :: t => (true, t)
    | '+' :: t => (false, t)
    | t => (false, t)
  let ds := signAndRest.2.takeWhile Char.isDigit
  if ds.isEmpty then none
  else some (if signAndRest.1 then -(digitsToNat ds : Int) else (digitsToNat ds : Int))

/-! ## Data API limit clamping (`jira-api.js`)

Each list endpoint destructures `limit` from the query string with a
per-endpoint default and then passes `Math.min(parseInt(limit), cap)` to
the SQL `LIMIT`.  When the parameter is absent the JavaScript default is
a number, and `parseInt` of that number is the number itself.  A `none`
result models the NaN case, where no integer reaches the claim. -/

/-- Effective LIMIT value for a handler with default `dflt` and cap `cap`,
given the raw `limit` query parameter (`none` = absent). -/
def effectiveLimit (limitParam : Option String) (dflt cap : Int) : Option Int :=
  match limitParam with
  | none => some (min dflt cap)
  | some s => (parseIntJS s).map (fun n => min n cap)

/-- LIMIT computation of `GET /jira/issues` (`limit = 100`, cap 1000). -/
def jiraIssuesLimit (limitParam : Option String) : Option Int :=
  effectiveLimit limitParam 100 1000

/-- LIMIT computation of `GET /jira/issues/search` (`limit = 50`, cap 200). -/
def jiraSearchLimit (limitParam : Option String) : Option Int :=
  effectiveLimit limitParam 50 200

/-- LIMIT computation of `GET /jira/projects` (`limit = 100`, cap 500). -/
def jiraProjectsLimit (limitParam : Option String) : Option Int :=
  effectiveLimit limitParam 100 500

/-- LIMIT computation of `GET /jira/sprints` (`limit = 100`, cap 500). -/
def jiraSprintsLimit (limitParam : Option String) : Option Int :=
  effectiveLimit limitParam 100 500

/-- LIMIT computation of `GET /jira/users` (`limit = 100`, cap 500). -/
def jiraUsersLimit (limitParam : Option String) : Option Int :=
  effectiveLimit limitParam 100 500

/-! ## `GET /jira/issues/search` guard

The handler rejects the request with HTTP 400 before any database call
when the `q` parameter is missing or shorter than two characters
(`if (!q || q.length < 2) return res.status(400)...`). -/

/-- Outcome of the search handler: either an HTTP error response sent
before any database access, or execution of the ILIKE query with the
interpolated search pattern. -/
inductive SearchOutcome where
  | rejected (status : Nat) (error : String)
  | executed (sqlPattern : String)
  deriving DecidableEq, Repr

/-- The `GET /jira/issues/search` handler restricted to the `q` guard and
the database call, from `jira-api.js` lines 123-163.  JavaScript `!q` is
true for an absent parameter and for the empty string; `q.length < 2`
covers all other short strings. -/
def jiraIssuesSearch (q : Option String) : SearchOutcome :=
  match q with
  | none => .rejected 400 "Search query (q) must be at least 2 characters"
  | some s =>
      if s.length < 2 then
        .rejected 400 "Search query (q) must be at least 2 characters"
      else
        .executed ("%" ++ s ++ "%")

/-! ## The `fact_issue_status_changes` view (`02_analytics_views.sql`)

The view selects from `issue_history` rows with `field_name = 'status'`
whose `old_value` and `new_value` both match the regex `^\d+$`, inner
joins `issues` and `projects`, left joins `issue_statuses` twice to
resolve the old and new status, and computes transition flags with SQL
three-valued logic (a flag column built from a NULL category is NULL). -/

/-- Row of the `issue_history` table (only the columns the view reads).
Nullable text columns are `Option String`. -/
structure HistoryRow where
  id : Nat
  issue_id : Nat
  user_id : Option Nat
  field_name : String
  old_value : Option String
  new_value : Option String
  created_at : Nat
  deriving DecidableEq, Repr

/-- Row of the `issues` table (only the columns the view reads). -/
structure IssueRow where
  id : Nat
  key : String
  project_id : Nat
  deriving DecidableEq, Repr

/-- Row of the `projects` table (only the columns the view reads). -/
structure ProjectRow where
  id : Nat
  key : String
  name : String
  deriving DecidableEq, Repr

/-- Row of the `issue_statuses` table. -/
structure StatusRow where
  id : Nat
  name : String
  category : String
  deriving DecidableEq, Repr

/-- SQL `=` on two nullable strings: NULL when either side is NULL. -/
def sqlEqStr (a b : Option String) : Option Bool :=
  match a, b with
  | some x, some y => some (x = y)
  | _, _ => none

/-- SQL `!=` on two nullable strings: NULL when either side is NULL. -/
def sqlNeStr (a b : Option String) : Option Bool :=
  match a, b with
  | some x, some y => some (x ≠ y)
  | _, _ => none

/-- SQL three-valued AND. -/
def sqlAnd (a b : Option Bool) : Option Bool :=
  match a, b with
  | some false, _ => some false
  | _, some false => some false
  | some true, some true => some true
  | _, _ => none

/-- Whether a nullable text value matches the regex `^\d+$`: the value is
present, non-empty, and entirely decimal digits (NULL never matches). -/
def matchesDigits (v : Option String) : Bool :=
  match v with
  | none => false
  | some s => ¬ s.isEmpty ∧ s.data.all Char.isDigit

/-- One output row of `fact_issue_status_changes` (the columns the
checked invariant mentions, plus the transition flags). -/
structure ChangeRow where
  change_id : Nat
  issue_id : Nat
  issue_key : String
  project_name : String
  old_status_id : Option String
  old_status_category : Option String
  new_status_id : Option String
  new_status_category : Option String
  is_reopen : Option Bool
  is_to_done : Option Bool
  changed_at : Nat
  deriving DecidableEq, Repr

/-- LEFT JOIN of `issue_statuses` on `value::int = id`, given a value
already known to match `^\d+$`. -/
def statusLookup (statuses : List StatusRow) (v : Option String) : Option StatusRow :=
  v.bind (fun s => statuses.find? (fun st => st.id = digitsToNat s.data))

/-- The view body applied to one filtered `issue_history` row: inner
joins on `issues` and `projects` (dropping the row if either is absent),
left joins on the two status lookups, and computes the flags. -/
def changeRowOf (issues : List IssueRow) (projects : List ProjectRow)
    (statuses : List StatusRow) (h : HistoryRow) : Option ChangeRow :=
  match issues.find? (fun i => i.id = h.issue_id) with
  | none => none
  | some i =>
      match projects.find? (fun p => p.id = i.project_id) with
      | none => none
      | some p =>
          let oldStatus := statusLookup statuses h.old_value
          let newStatus := statusLookup statuses h.new_value
          let oldCat := oldStatus.map (fun st => st.category)
          let newCat := newStatus.map (fun st => st.category)
          some
            { change_id := h.id
              issue_id := h.issue_id
              issue_key := i.key
              project_name := p.name
              old_status_id := h.old_value
              old_status_category := oldCat
              new_status_id := h.new_value
              new_status_category := newCat
              is_reopen := sqlAnd (sqlEqStr oldCat (some "done"))
                (sqlNeStr newCat (some "done"))
              is_to_done := sqlEqStr newCat (some "done")
              changed_at := h.created_at }

/-- The `fact_issue_status_changes` view over the base tables: keep the
`issue_history` rows passing the WHERE clause, then join and project. -/
def factIssueStatusChanges (hist : List HistoryRow) (issues : List IssueRow)
    (projects : List ProjectRow) (statuses : List StatusRow) : List ChangeRow :=
  (hist.filter (fun h =>
      h.field_name = "status" ∧ matchesDigits h.old_value ∧ matchesDigits h.new_value)).filterMap
    (changeRowOf issues projects statuses)

/-! ## Agent core data model

The Python agent sources (`universal_agent.py`, `prompt_builder.py`) are
not part of the checked tree — only their callers, demo scripts and
configuration are — so the query-resolution core below is modelled from
the specification (sections 3, 4.3-4.6 and 7). -/

/-- Modelled from the spec: the kind tag of a queryable field
(`measure | dimension | time_dimension`), section 3. -/
inductive FieldKind where
  | measure
  | dimension
  | time_dimension
  deriving DecidableEq, Repr

/-- Modelled from the spec: a queryable attribute of the Schema Index
with fully-qualified `entity.field` name, kind, owning entity, human
title and description (section 3, missing `universal_agent.py`). -/
structure Field where
  name : String
  kind : FieldKind
  entity : String
  title : String
  description : String
  deriving DecidableEq, Repr

/-- Modelled from the spec: a filter clause of a StructuredQuery —
`(member, operator, values)` as in the semantic-layer wire shape
(sections 3 and 6). -/
structure Filter where
  member : String
  operator : String
  values : List String
  deriving DecidableEq, Repr

/-- Modelled from the spec: a time dimension with granularity, as in the
wire shape `{dimension, granularity}` (section 6). -/
structure TimeDimension where
  dimension : String
  granularity : String
  deriving DecidableEq, Repr

/-- Modelled from the spec: the canonical StructuredQuery — measures,
dimensions, optional time dimensions, filters, ordering and row limit
(section 3, missing `universal_agent.py`). -/
structure StructuredQuery where
  measures : List String
  dimensions : List String
  timeDimensions : List TimeDimension
  filters : List Filter
  order : List (String × String)
  limit : Option Nat
  deriving DecidableEq, Repr

/-- Modelled from the spec: a worked natural-language → query example
kept in the Schema Index (section 3). -/
structure Example where
  question : String
  query : StructuredQuery
  deriving DecidableEq, Repr

/-- Modelled from the spec: the read-only Schema Index — known fields
plus the example library (section 3, missing `universal_agent.py`). -/
structure SchemaIndex where
  fields : List Field
  examples : List Example
  deriving DecidableEq, Repr

/-- Modelled from the spec: the validation error taxonomy of section 7
restricted to the validator (`MalformedQuery` carries the raw model
output for logging). -/
inductive ValidationError where
  | MalformedQuery (raw : String)
  | EmptyQuery
  deriving DecidableEq, Repr

/-! ## Query Validator/Repairer (spec section 4.4) -/

/-- ASCII lowercase of one character. -/
def lowerChar (c : Char) : Char :=
  if 'A' ≤ c ∧ c ≤ 'Z' then Char.ofNat (c.toNat + 32) else c

/-- Modelled from the spec: the pure normalization pipeline behind the
case/underscore/pluralization-insensitive field match — lowercase,
delimiter removal, then singularization by stripping a trailing `s`
(section 4.4 step 4 and the design note of section 9). -/
def normalizeField (s : String) : String :=
  let t := (s.data.map lowerChar).filter (fun c => c ≠ '_')
  let t :=
    match t.getLast? with
    | some 's' => t.dropLast
    | _ => t
  String.mk t

/-- Modelled from the spec: whether a referenced field name matches a
known fully-qualified name of the Schema Index under the insensitive
normalization (section 4.4 step 4). -/
def fieldKnown (schema : List String) (name : String) : Bool :=
  schema.any (fun f => normalizeField f = normalizeField name)

/-- Modelled from the spec: validator steps 4-5 — drop unknown
measure/dimension/filter fields (recording each dropped name as a
warning), fail with `EmptyQuery` when no measure and no dimension
survives, and clamp/default the row limit (section 4.4, missing
`universal_agent.py`). -/
def validateFields (schema : List String) (maxLimit dfltLimit : Nat)
    (q : StructuredQuery) : Except ValidationError (StructuredQuery × List String) :=
  let ms := q.measures.filter (fun m => fieldKnown schema m)
  let ds := q.dimensions.filter (fun d => fieldKnown schema d)
  let fs := q.filters.filter (fun f => fieldKnown schema f.member)
  let dropped :=
    q.measures.filter (fun m => ¬ fieldKnown schema m) ++
    q.dimensions.filter (fun d => ¬ fieldKnown schema d) ++
    (q.filters.filter (fun f => ¬ fieldKnown schema f.member)).map (fun f => f.member)
  if ms.isEmpty ∧ ds.isEmpty then
    .error .EmptyQuery
  else
    .ok ({ q with
           measures := ms,
           dimensions := ds,
           filters := fs,
           limit := some (min (q.limit.getD dfltLimit) maxLimit) }, dropped)

/-- Modelled from the spec: strict parse, then exactly one bounded
syntactic repair followed by one re-parse, then `MalformedQuery`
carrying the raw text (section 4.4 steps 1-3, missing
`universal_agent.py`).  The strict parser is a parameter of the model;
`repair` is the mechanical outer-container repair below. -/
def parseAndRepair (parse : String → Option StructuredQuery)
    (repair : String → String) (raw : String) :
    Except ValidationError StructuredQuery :=
  match parse raw with
  | some q => .ok q
  | none =>
      match parse (repair raw) with
      | some q => .ok q
      | none => .error (.MalformedQuery raw)

/-- Opening-brace character of the structured-object container. -/
def lbrace : Char := Char.ofNat 123

/-- Closing-brace character of the structured-object container. -/
def rbrace : Char := Char.ofNat 125

/-- Modelled from the spec: bounded syntactic repair — trim surrounding
prose and code-fence markers down to the outermost braced container and
drop trailing commas; no semantic guessing (section 4.4 step 2). -/
def repairContainer (s : String) : String :=
  let cs := s.data.dropWhile (fun c => c ≠ lbrace)
  let cs := (cs.reverse.dropWhile (fun c => c ≠ rbrace)).reverse
  let cs := dropTrailingCommas cs
  String.mk cs
where
  /-- Remove a comma that immediately precedes a closing bracket. -/
  dropTrailingCommas : List Char → List Char
    | [] => []
    | ',' :: c :: rest =>
        if c = rbrace ∨ c = ']' then c :: dropTrailingCommas rest
        else ',' :: dropTrailingCommas (c :: rest)
    | c :: rest => c :: dropTrailingCommas rest

/-- Modelled from the spec: the full validator contract
`parse_and_validate(raw_text, schema) -> StructuredQuery | ValidationError`
(section 4.4, missing `universal_agent.py`). -/
def parse_and_validate (parse : String → Option StructuredQuery)
    (schema : List String) (maxLimit dfltLimit : Nat) (raw : String) :
    Except ValidationError (StructuredQuery × List String) :=
  match parseAndRepair parse repairContainer raw with
  | .error e => .error e
  | .ok q => validateFields schema maxLimit dfltLimit q

/-! ## Vector Retriever (spec section 4.1) -/

/-- Modelled from the spec: a retrieval candidate — a Schema Index field
or a worked example (section 4.1). -/
inductive Candidate where
  | ofField (f : Field)
  | ofExample (e : Example)
  deriving DecidableEq, Repr

/-- The text embedded for a candidate: a field's description, an
example's question (section 4.1). -/
def candidateText : Candidate → String
  | .ofField f => f.description
  | .ofExample e => e.question

/-- All candidates of a Schema Index, in insertion order: fields first,
then examples. -/
def candidates (idx : SchemaIndex) : List Candidate :=
  idx.fields.map Candidate.ofField ++ idx.examples.map Candidate.ofExample

/-- A candidate with its insertion position and relevance score. -/
structure Scored where
  pos : Nat
  score : Int
  item : Candidate
  deriving DecidableEq, Repr

/-- Inner product of two embedding vectors (section 4.1: similarity is
an inner product over the embedding backend's vectors). -/
def dotProduct (v w : List Int) : Int :=
  (List.zipWith (fun a b => a * b) v w).sum

/-- Modelled from the spec: score every candidate of the index against
the question using the configured embedding backend (section 4.1,
missing `universal_agent.py`). -/
def scoreCandidates (embed : String → List Int) (question : String)
    (idx : SchemaIndex) : List Scored :=
  ((candidates idx).enum).map (fun pc =>
    { pos := pc.1
      score := dotProduct (embed question) (embed (candidateText pc.2))
      item := pc.2 })

/-- Ranking relation: higher score first, ties broken by insertion
order in the Schema Index (section 4.1). -/
def rankBefore (a b : Scored) : Prop :=
  b.score < a.score ∨ (a.score = b.score ∧ a.pos ≤ b.pos)

instance : DecidableRel rankBefore := fun a b => by
  unfold rankBefore
  exact inferInstance

instance : IsTotal Scored rankBefore :=
  ⟨fun a b => by unfold rankBefore; omega⟩

instance : IsTrans Scored rankBefore :=
  ⟨fun a b c hab hbc => by unfold rankBefore at hab hbc ⊢; omega⟩

/-- Modelled from the spec:
`retrieve(question, k) -> RetrievalResult` — rank all candidates by
descending score with ties in insertion order, return the top `k`
(section 4.1, missing `universal_agent.py`). -/
def retrieve (embed : String → List Int) (idx : SchemaIndex)
    (question : String) (k : Nat) : List Scored :=
  (List.insertionSort rankBefore (scoreCandidates embed question idx)).take k

/-! ## Query Generator retry policy (spec section 4.3) -/

/-- Modelled from the spec: the outcome of one language-model call —
either a received raw text, or a transient transport failure (timeout,
5xx, rate limit), section 4.3. -/
inductive GenOutcome where
  | received (raw : String)
  | timeout
  | serverError
  | rateLimited
  deriving DecidableEq, Repr

/-- Modelled from the spec: the retry classifier of sections 4.3 and 9 —
timeouts, 5xx and rate-limit signals are retryable transport failures; a
received response is never a retry trigger, malformed or not. -/
def retryableOutcome : GenOutcome → Bool
  | .received _ => false
  | .timeout => true
  | .serverError => true
  | .rateLimited => true

/-- Modelled from the spec: bounded retry loop of the Query Generator
(section 4.3, missing `universal_agent.py`): call the backend; stop on
any received response, retry transient failures while fuel remains.
Returns the raw text with the number of calls made, `none` standing for
`GenerationUnavailable` after exhausting the bound. -/
def generateWithRetry (backend : Nat → GenOutcome) :
    Nat → Nat → Option (String × Nat)
  | 0, _ => none
  | fuel + 1, attempt =>
      match backend attempt with
      | .received raw => some (raw, attempt + 1)
      | _ => generateWithRetry backend fuel (attempt + 1)

/-! ## Query Executor with single regeneration (spec sections 4.5 and 7) -/

/-- Modelled from the spec: outcome of executing a StructuredQuery
against the semantic layer — result rows, a rejection fault carrying the
layer's reason, or a timeout (section 4.5). -/
inductive ExecResult where
  | rows (data : List (List String))
  | rejected (reason : String)
  | timeout
  deriving DecidableEq, Repr

/-- Modelled from the spec: the regeneration policy of sections 4.5 and
7 (missing `universal_agent.py`).  `attempt none` runs the
generate-validate-execute pipeline; `attempt (some reason)` re-runs it
with the rejection reason appended to the prompt context.  Exactly an
`ExecutionRejected` first outcome triggers exactly one regeneration;
the second outcome is surfaced as is.  The second component counts the
pipeline runs. -/
def runWithRegeneration (attempt : Option String → ExecResult) :
    ExecResult × Nat :=
  match attempt none with
  | .rejected reason => (attempt (some reason), 2)
  | r => (r, 1)

/-! ## Answer Renderer (spec section 4.6) -/

/-- Modelled from the spec: the query intent named in rendered answers —
the measures and dimensions of the executed StructuredQuery. -/
def describeIntent (q : StructuredQuery) : String :=
  String.intercalate ", " (q.measures ++ q.dimensions)

/-- Render one result row. -/
def renderRow (r : List String) : String :=
  String.intercalate " | " r

/-- Modelled from the spec: `render(question, query, rows)` — an
explicit no-results statement naming the query intent when `rows` is
empty, otherwise a deterministic summary enumerating up to ten rows
(section 4.6, missing `universal_agent.py`). -/
def render (question : String) (q : StructuredQuery)
    (rows : List (List String)) : String :=
  if rows.isEmpty then
    "No results for " ++ describeIntent q ++ "."
  else
    "Found " ++ toString rows.length ++ " rows for " ++ describeIntent q ++
      ": " ++ String.intercalate "; " ((rows.take 10).map renderRow)

/-! ## Semantic-layer wire shape (spec section 6)

The query API accepts a JSON-like object
`(measures, dimensions, timeDimensions?, filters?, order?, limit?)`;
optional keys are emitted only when the corresponding part is present,
as in the demo Cube queries. -/

/-- A JSON-like value, the wire representation of queries. -/
inductive Json where
  | str (s : String)
  | num (n : Int)
  | arr (xs : List Json)
  | obj (fields : List (String × Json))

/-- Structural `Option`-valued map used by the wire parser. -/
def mapOption (f : α → Option β) : List α → Option (List β)
  | [] => some []
  | x :: xs =>
      match f x, mapOption f xs with
      | some y, some ys => some (y :: ys)
      | _, _ => none

/-- Wire form of a time dimension: `(dimension, granularity)`. -/
def serializeTimeDimension (t : TimeDimension) : Json :=
  .obj [("dimension", .str t.dimension), ("granularity", .str t.granularity)]

/-- Wire form of a filter: `(member, operator, values)`. -/
def serializeFilter (f : Filter) : Json :=
  .obj [("member", .str f.member), ("operator", .str f.operator),
        ("values", .arr (f.values.map Json.str))]

/-- The two mandatory wire entries: measures and dimensions. -/
def mandatoryEntries (q : StructuredQuery) : List (String × Json) :=
  [("measures", .arr (q.measures.map Json.str)),
   ("dimensions", .arr (q.dimensions.map Json.str))]

/-- Optional `timeDimensions` wire entry. -/
def tdEntries (q : StructuredQuery) : List (String × Json) :=
  if q.timeDimensions.isEmpty then []
  else [("timeDimensions", .arr (q.timeDimensions.map serializeTimeDimension))]

/-- Optional `filters` wire entry. -/
def filterEntries (q : StructuredQuery) : List (String × Json) :=
  if q.filters.isEmpty then []
  else [("filters", .arr (q.filters.map serializeFilter))]

/-- Optional `order` wire entry (an object of field/direction pairs). -/
def orderEntries (q : StructuredQuery) : List (String × Json) :=
  if q.order.isEmpty then []
  else [("order", .obj (q.order.map (fun p => (p.1, Json.str p.2))))]

/-- Optional `limit` wire entry. -/
def limitEntries (q : StructuredQuery) : List (String × Json) :=
  match q.limit with
  | none => []
  | some l => [("limit", .num (Int.ofNat l))]

/-- Modelled from the spec: serialization of a StructuredQuery to the
semantic-layer wire shape of section 6 (missing `universal_agent.py`). -/
def serializeQuery (q : StructuredQuery) : Json :=
  .obj (mandatoryEntries q ++ tdEntries q ++ filterEntries q ++
    orderEntries q ++ limitEntries q)

/-- Key lookup in a wire object. -/
def jLookup (j : Json) (key : String) : Option Json :=
  match j with
  | .obj fs => (fs.find? (fun p => p.1 = key)).map (fun p => p.2)
  | _ => none

/-- Expect a JSON string. -/
def asString : Json → Option String
  | .str s => some s
  | _ => none

/-- Expect a JSON array of strings. -/
def asStringList : Json → Option (List String)
  | .arr xs => mapOption asString xs
  | _ => none

/-- Parse a wire time dimension. -/
def parseTimeDimension (j : Json) : Option TimeDimension :=
  match jLookup j "dimension", jLookup j "granularity" with
  | some (.str d), some (.str g) => some ⟨d, g⟩
  | _, _ => none

/-- Parse a wire filter. -/
def parseFilter (j : Json) : Option Filter :=
  match jLookup j "member", jLookup j "operator", jLookup j "values" with
  | some (.str m), some (.str o), some (.arr vs) =>
      (mapOption asString vs).map (fun values => ⟨m, o, values⟩)
  | _, _, _ => none

/-- Parse the optional `timeDimensions` entry (absent means empty). -/
def parseTimeDimensionList : Option Json → Option (List TimeDimension)
  | none => some []
  | some (.arr xs) => mapOption parseTimeDimension xs
  | some _ => none

/-- Parse the optional `filters` entry (absent means empty). -/
def parseFilterList : Option Json → Option (List Filter)
  | none => some []
  | some (.arr xs) => mapOption parseFilter xs
  | some _ => none

/-- Parse one order pair of the wire `order` object. -/
def parseOrderEntry (p : String × Json) : Option (String × String) :=
  match p.2 with
  | .str v => some (p.1, v)
  | _ => none

/-- Parse the optional `order` entry (absent means empty). -/
def parseOrder : Option Json → Option (List (String × String))
  | none => some []
  | some (.obj fs) => mapOption parseOrderEntry fs
  | some _ => none

/-- Parse the optional `limit` entry (absent means no limit). -/
def parseLimit : Option Json → Option (Option Nat)
  | none => some none
  | some (.num n) => if 0 ≤ n then some (some n.toNat) else none
  | some _ => none

/-- Modelled from the spec: parsing the semantic-layer wire object back
into a StructuredQuery (section 6, missing `universal_agent.py`). -/
def parseWire (j : Json) : Option StructuredQuery :=
  match (jLookup j "measures").bind asStringList,
      (jLookup j "dimensions").bind asStringList,
      parseTimeDimensionList (jLookup j "timeDimensions"),
      parseFilterList (jLookup j "filters"),
      parseOrder (jLookup j "order"),
      parseLimit (jLookup j "limit") with
  | some ms, some ds, some tds, some fls, some ord, some lim =>
      some { measures := ms, dimensions := ds, timeDimensions := tds,
             filters := fls, order := ord, limit := lim }
  | _, _, _, _, _, _ => none

/-- Equivalence of StructuredQuery objects as C7 states it: the
set-valued parts are equal up to permutation, order and limit are
equal. -/
def equivQuery (a b : StructuredQuery) : Prop :=
  a.measures.Perm b.measures ∧ a.dimensions.Perm b.dimensions ∧
  a.timeDimensions.Perm b.timeDimensions ∧ a.filters.Perm b.filters ∧
  a.order = b.order ∧ a.limit = b.limit

end SemanticAgent

namespace SemanticAgent

/-- C8: for every Data API list endpoint, a `limit` parameter that parses
as an integer is clamped so the LIMIT handed to the database never
exceeds the per-endpoint cap (1000 for issues, 200 for search, 500 for
projects/sprints/users), and an absent `limit` uses the per-endpoint
default (100 for issues, 50 for search). -/
theorem data_api_limit_caps :
    (∀ (s : String) (n : Int), parseIntJS s = some n →
      jiraIssuesLimit (some s) = some (min n 1000) ∧
      jiraSearchLimit (some s) = some (min n 200) ∧
      jiraProjectsLimit (some s) = some (min n 500) ∧
      jiraSprintsLimit (some s) = some (min n 500) ∧
      jiraUsersLimit (some s) = some (min n 500) ∧
      min n 1000 ≤ 1000 ∧ min n 200 ≤ 200 ∧ min n 500 ≤ 500) ∧
    jiraIssuesLimit none = some 100 ∧
    jiraSearchLimit none = some 50 := by
  refine ⟨?_, by decide, by decide⟩
  intro s n h
  simp [jiraIssuesLimit, jiraSearchLimit, jiraProjectsLimit, jiraSprintsLimit,
    jiraUsersLimit, effectiveLimit, h, min_le_right]

/-- Witness for C8 at the concrete parameter `limit = "1500"`. -/
theorem data_api_limit_caps_witness :
    jiraIssuesLimit (some "1500") = some (min 1500 1000) ∧
    jiraSearchLimit (some "1500") = some (min 1500 200) ∧
    jiraProjectsLimit (some "1500") = some (min 1500 500) ∧
    jiraSprintsLimit (some "1500") = some (min 1500 500) ∧
    jiraUsersLimit (some "1500") = some (min 1500 500) ∧
    min (1500 : Int) 1000 ≤ 1000 ∧ min (1500 : Int) 200 ≤ 200 ∧
    min (1500 : Int) 500 ≤ 500 :=
  data_api_limit_caps.1 "1500" 1500 (by decide)

/-- C9: whenever the `q` parameter of `GET /jira/issues/search` is
absent, empty, or shorter than two characters, the handler answers HTTP
400 with an error message and executes no database query. -/
theorem search_short_query_rejected (q : Option String)
    (h : q = none ∨ ∃ s, q = some s ∧ s.length < 2) :
    jiraIssuesSearch q =
      .rejected 400 "Search query (q) must be at least 2 characters" := by
  rcases h with h | ⟨s, rfl, hs⟩
  · subst h; rfl
  · simp [jiraIssuesSearch, hs]

/-- Witness for C9 at the concrete one-character query `"a"`. -/
theorem search_short_query_rejected_witness :
    jiraIssuesSearch (some "a") =
      .rejected 400 "Search query (q) must be at least 2 characters" :=
  search_short_query_rejected (some "a") (Or.inr ⟨"a", rfl, by decide⟩)

/-- Under SQL three-valued logic, the `is_reopen` expression is TRUE
exactly when the old category is present and `'done'` and the new
category is present and differs from `'done'`. -/
lemma reopen_flag_eq_true_iff (a b : Option String) :
    sqlAnd (sqlEqStr a (some "done")) (sqlNeStr b (some "done")) = some true ↔
      a = some "done" ∧ ∃ c, b = some c ∧ c ≠ "done" := by
  cases a with
  | none =>
      cases b with
      | none => simp [sqlAnd, sqlEqStr, sqlNeStr]
      | some y =>
          by_cases hy : y = "done" <;> simp [sqlAnd, sqlEqStr, sqlNeStr, hy]
  | some x =>
      cases b with
      | none =>
          by_cases hx : x = "done" <;> simp [sqlAnd, sqlEqStr, sqlNeStr, hx]
      | some y =>
          by_cases hx : x = "done" <;> by_cases hy : y = "done" <;>
            simp [sqlAnd, sqlEqStr, sqlNeStr, hx, hy]

/-- C10: every row of `fact_issue_status_changes` comes from an
`issue_history` row with `field_name = 'status'` whose old and new
values are both non-empty all-digit strings, and the row's `is_reopen`
flag is TRUE exactly when the old status category is `'done'` and the
new status category is a category different from `'done'`. -/
theorem fact_status_changes_sound (hist : List HistoryRow)
    (issues : List IssueRow) (projects : List ProjectRow)
    (statuses : List StatusRow) (row : ChangeRow)
    (hrow : row ∈ factIssueStatusChanges hist issues projects statuses) :
    (∃ h, h ∈ hist ∧ h.field_name = "status" ∧
      (∃ ov, h.old_value = some ov ∧ ov ≠ "" ∧ ov.data.all Char.isDigit) ∧
      (∃ nv, h.new_value = some nv ∧ nv ≠ "" ∧ nv.data.all Char.isDigit) ∧
      changeRowOf issues projects statuses h = some row) ∧
    (row.is_reopen = some true ↔
      row.old_status_category = some "done" ∧
      ∃ c, row.new_status_category = some c ∧ c ≠ "done") := by
  unfold factIssueStatusChanges at hrow
  rw [List.mem_filterMap] at hrow
  obtain ⟨h, hmem, hsome⟩ := hrow
  rw [List.mem_filter] at hmem
  obtain ⟨hh, hpred⟩ := hmem
  simp only [decide_eq_true_eq] at hpred
  obtain ⟨hname, hold, hnew⟩ := hpred
  have holdW : ∃ ov, h.old_value = some ov ∧ ov ≠ "" ∧ ov.data.all Char.isDigit := by
    cases hv : h.old_value with
    | none => rw [hv] at hold; simp [matchesDigits] at hold
    | some s =>
        rw [hv] at hold
        simp only [matchesDigits, String.isEmpty_iff, decide_eq_true_eq] at hold
        exact ⟨s, rfl, hold.1, hold.2⟩
  have hnewW : ∃ nv, h.new_value = some nv ∧ nv ≠ "" ∧ nv.data.all Char.isDigit := by
    cases hv : h.new_value with
    | none => rw [hv] at hnew; simp [matchesDigits] at hnew
    | some s =>
        rw [hv] at hnew
        simp only [matchesDigits, String.isEmpty_iff, decide_eq_true_eq] at hnew
        exact ⟨s, rfl, hnew.1, hnew.2⟩
  refine ⟨⟨h, hh, hname, holdW, hnewW, hsome⟩, ?_⟩
  unfold changeRowOf at hsome
  cases hfi : issues.find? (fun i => i.id = h.issue_id) with
  | none => rw [hfi] at hsome; simp at hsome
  | some i =>
      rw [hfi] at hsome
      dsimp only at hsome
      cases hfp : projects.find? (fun p => p.id = i.project_id) with
      | none => rw [hfp] at hsome; simp at hsome
      | some p =>
          rw [hfp] at hsome
          dsimp only at hsome
          have hrec := Option.some.inj hsome
          subst hrec
          exact reopen_flag_eq_true_iff _ _

/-- One-row concrete `issue_history` table for the C10 witness: a
`status` change from status 2 (category `done`) to status 1. -/
def witnessHist : List HistoryRow :=
  [{ id := 7, issue_id := 1, user_id := none, field_name := "status",
     old_value := some "2", new_value := some "1", created_at := 0 }]

/-- Concrete `issues` table for the C10 witness. -/
def witnessIssues : List IssueRow :=
  [{ id := 1, key := "AUTH-1", project_id := 3 }]

/-- Concrete `projects` table for the C10 witness. -/
def witnessProjects : List ProjectRow :=
  [{ id := 3, key := "AUTH", name := "Auth" }]

/-- Concrete `issue_statuses` table for the C10 witness. -/
def witnessStatuses : List StatusRow :=
  [{ id := 1, name := "To Do", category := "todo" },
   { id := 2, name := "Done", category := "done" }]

/-- The view row the C10 witness database produces. -/
def witnessChangeRow : ChangeRow :=
  { change_id := 7, issue_id := 1, issue_key := "AUTH-1",
    project_name := "Auth", old_status_id := some "2",
    old_status_category := some "done", new_status_id := some "1",
    new_status_category := some "todo", is_reopen := some true,
    is_to_done := some false, changed_at := 0 }

/-- Helper: in the validator output the measure list is the filter of
the parsed measure list by schema membership, and similarly for
dimensions and filters; the warning list collects the dropped names. -/
lemma validateFields_ok_inv (schema : List String) (maxLimit dfltLimit : Nat)
    (q q' : StructuredQuery) (ws : List String)
    (hok : validateFields schema maxLimit dfltLimit q = .ok (q', ws)) :
    q'.measures = q.measures.filter (fun m => fieldKnown schema m) ∧
    q'.dimensions = q.dimensions.filter (fun d => fieldKnown schema d) ∧
    q'.filters = q.filters.filter (fun f => fieldKnown schema f.member) ∧
    ws = q.measures.filter (fun m => ¬ fieldKnown schema m) ++
      q.dimensions.filter (fun d => ¬ fieldKnown schema d) ++
      (q.filters.filter (fun f => ¬ fieldKnown schema f.member)).map
        (fun f => f.member) := by
  unfold validateFields at hok
  simp only [] at hok
  split at hok
  · exact absurd hok (by simp)
  · have h := Except.ok.inj hok
    have h1 := congrArg Prod.fst h
    have h2 := congrArg Prod.snd h
    dsimp at h1 h2
    subst h1
    subst h2
    exact ⟨rfl, rfl, rfl, rfl⟩

/-- C1: whenever the raw model output parses (directly or after the one
repair), validation against the Schema Index leaves only known field
names in the resulting StructuredQuery; every unknown measure,
dimension or filter member is dropped and recorded as a warning; and
the result is the `EmptyQuery` error exactly when dropping leaves no
measure and no dimension. -/
theorem validator_no_unknown_fields
    (parse : String → Option StructuredQuery) (schema : List String)
    (maxLimit dfltLimit : Nat) (raw : String) (q : StructuredQuery)
    (hparse : parseAndRepair parse repairContainer raw = .ok q) :
    parse_and_validate parse schema maxLimit dfltLimit raw =
      validateFields schema maxLimit dfltLimit q ∧
    (validateFields schema maxLimit dfltLimit q = .error .EmptyQuery ↔
      q.measures.filter (fun m => fieldKnown schema m) = [] ∧
      q.dimensions.filter (fun d => fieldKnown schema d) = []) ∧
    (∀ q' ws, validateFields schema maxLimit dfltLimit q = .ok (q', ws) →
      (∀ m ∈ q'.measures, fieldKnown schema m) ∧
      (∀ d ∈ q'.dimensions, fieldKnown schema d) ∧
      (∀ f ∈ q'.filters, fieldKnown schema f.member) ∧
      (∀ m ∈ q.measures, ¬ fieldKnown schema m → m ∈ ws ∧ m ∉ q'.measures) ∧
      (∀ d ∈ q.dimensions, ¬ fieldKnown schema d → d ∈ ws ∧ d ∉ q'.dimensions) ∧
      (∀ f ∈ q.filters, ¬ fieldKnown schema f.member →
        f.member ∈ ws ∧ f ∉ q'.filters)) := by
  refine ⟨?_, ?_, ?_⟩
  · unfold parse_and_validate
    rw [hparse]
  · unfold validateFields
    simp only []
    split
    case isTrue h =>
      simp only [List.isEmpty_iff] at h
      simp [h.1, h.2]
    case isFalse h =>
      simp only [List.isEmpty_iff] at h
      constructor
      · intro hc
        exact absurd hc (by simp)
      · intro hc
        exact absurd hc (by tauto)
  · intro q' ws hok
    obtain ⟨hq1, hq2, hq3, hws⟩ :=
      validateFields_ok_inv schema maxLimit dfltLimit q q' ws hok
    refine ⟨?_, ?_, ?_, ?_, ?_, ?_⟩
    · intro m hm
      rw [hq1] at hm
      exact (List.mem_filter.mp hm).2
    · intro d hd
      rw [hq2] at hd
      exact (List.mem_filter.mp hd).2
    · intro f hf
      rw [hq3] at hf
      exact (List.mem_filter.mp hf).2
    · intro m hm hunk
      constructor
      · rw [hws]
        exact List.mem_append_left _ (List.mem_append_left _
          (List.mem_filter.mpr ⟨hm, by simpa using hunk⟩))
      · intro hc
        rw [hq1] at hc
        exact hunk (List.mem_filter.mp hc).2
    · intro d hd hunk
      constructor
      · rw [hws]
        exact List.mem_append_left _ (List.mem_append_right _
          (List.mem_filter.mpr ⟨hd, by simpa using hunk⟩))
      · intro hc
        rw [hq2] at hc
        exact hunk (List.mem_filter.mp hc).2
    · intro f hf hunk
      constructor
      · rw [hws]
        exact List.mem_append_right _
          (List.mem_map.mpr ⟨f, List.mem_filter.mpr ⟨hf, by simpa using hunk⟩, rfl⟩)
      · intro hc
        rw [hq3] at hc
        exact hunk (List.mem_filter.mp hc).2

/-- Concrete two-field schema used by the validator witnesses. -/
def cSchema : List String :=
  ["fact_issues.throughput", "fact_issues.project_name"]

/-- Scenario C query: an unknown measure `fact_issues.bogus_metric`
alongside a valid dimension. -/
def scenarioCQuery : StructuredQuery :=
  { measures := ["fact_issues.bogus_metric"]
    dimensions := ["fact_issues.project_name"]
    timeDimensions := []
    filters := []
    order := []
    limit := none }

/-- A mocked strict parser that always returns the Scenario C query. -/
def cParse : String → Option StructuredQuery :=
  fun _ => some scenarioCQuery

/-- Witness for C1 on Scenario C: the mocked model output parses to a
query with one unknown measure and one valid dimension. -/
theorem validator_no_unknown_fields_witness :
    parse_and_validate cParse cSchema 5000 100 "raw" =
      validateFields cSchema 5000 100 scenarioCQuery ∧
    (validateFields cSchema 5000 100 scenarioCQuery = .error .EmptyQuery ↔
      scenarioCQuery.measures.filter (fun m => fieldKnown cSchema m) = [] ∧
      scenarioCQuery.dimensions.filter (fun d => fieldKnown cSchema d) = []) ∧
    (∀ q' ws, validateFields cSchema 5000 100 scenarioCQuery = .ok (q', ws) →
      (∀ m ∈ q'.measures, fieldKnown cSchema m) ∧
      (∀ d ∈ q'.dimensions, fieldKnown cSchema d) ∧
      (∀ f ∈ q'.filters, fieldKnown cSchema f.member) ∧
      (∀ m ∈ scenarioCQuery.measures, ¬ fieldKnown cSchema m →
        m ∈ ws ∧ m ∉ q'.measures) ∧
      (∀ d ∈ scenarioCQuery.dimensions, ¬ fieldKnown cSchema d →
        d ∈ ws ∧ d ∉ q'.dimensions) ∧
      (∀ f ∈ scenarioCQuery.filters, ¬ fieldKnown cSchema f.member →
        f.member ∈ ws ∧ f ∉ q'.filters)) :=
  validator_no_unknown_fields cParse cSchema 5000 100 "raw" scenarioCQuery rfl

/-- A query with no measures and no dimensions but an in-range limit:
it meets the validity conditions C6 states, yet validation is not a
no-op on it. -/
def emptyLimitedQuery : StructuredQuery :=
  { measures := []
    dimensions := []
    timeDimensions := []
    filters := []
    order := []
    limit := some 10 }

/-- Counterexample to C6 as stated: `emptyLimitedQuery` references only
known fields (vacuously) and its limit 10 is within the configured
maximum 5000, yet the validator does not return it unchanged — it fails
with `EmptyQuery`. -/
theorem validator_idempotent_counterexample :
    (∀ m ∈ emptyLimitedQuery.measures, fieldKnown cSchema m) ∧
    (∀ d ∈ emptyLimitedQuery.dimensions, fieldKnown cSchema d) ∧
    (∀ f ∈ emptyLimitedQuery.filters, fieldKnown cSchema f.member) ∧
    emptyLimitedQuery.limit = some 10 ∧ 10 ≤ 5000 ∧
    (∀ ws, validateFields cSchema 5000 100 emptyLimitedQuery ≠
      .ok (emptyLimitedQuery, ws)) ∧
    validateFields cSchema 5000 100 emptyLimitedQuery = .error .EmptyQuery := by
  have herr : validateFields cSchema 5000 100 emptyLimitedQuery =
      .error .EmptyQuery := rfl
  refine ⟨by decide, by decide, by decide, rfl, by decide, ?_, herr⟩
  intro ws hc
  rw [herr] at hc
  exact Except.noConfusion hc

/-- C6 (amended): validating an already-valid StructuredQuery that has
at least one measure or dimension is a no-op — every referenced field
known, the limit present and within the configured maximum — returning
the query unchanged with no warnings. -/
theorem validator_idempotent (schema : List String) (maxLimit dfltLimit : Nat)
    (q : StructuredQuery) (l : Nat)
    (hm : ∀ m ∈ q.measures, fieldKnown schema m)
    (hd : ∀ d ∈ q.dimensions, fieldKnown schema d)
    (hf : ∀ f ∈ q.filters, fieldKnown schema f.member)
    (hne : q.measures ≠ [] ∨ q.dimensions ≠ [])
    (hl : q.limit = some l) (hlm : l ≤ maxLimit) :
    validateFields schema maxLimit dfltLimit q = .ok (q, []) := by
  obtain ⟨ms, ds, tds, fls, ord, lim⟩ := q
  dsimp at hm hd hf hne hl
  subst hl
  have hms : ms.filter (fun m => fieldKnown schema m) = ms :=
    List.filter_eq_self.mpr hm
  have hds : ds.filter (fun d => fieldKnown schema d) = ds :=
    List.filter_eq_self.mpr hd
  have hfs : fls.filter (fun f => fieldKnown schema f.member) = fls :=
    List.filter_eq_self.mpr hf
  have hdm : ms.filter (fun m => ¬ fieldKnown schema m) = [] := by
    rw [List.filter_eq_nil_iff]
    intro a ha
    simp [hm a ha]
  have hdd : ds.filter (fun d => ¬ fieldKnown schema d) = [] := by
    rw [List.filter_eq_nil_iff]
    intro a ha
    simp [hd a ha]
  have hdf : fls.filter (fun f => ¬ fieldKnown schema f.member) = [] := by
    rw [List.filter_eq_nil_iff]
    intro a ha
    simp [hf a ha]
  unfold validateFields
  dsimp only
  rw [hms, hds, hfs, hdm, hdd, hdf]
  rw [if_neg (by simp only [List.isEmpty_iff]; tauto)]
  simp [min_eq_left hlm]

/-- A concrete already-valid query for the amended C6 witness. -/
def validQuery : StructuredQuery :=
  { measures := ["fact_issues.throughput"]
    dimensions := ["fact_issues.project_name"]
    timeDimensions := []
    filters := []
    order := []
    limit := some 10 }

/-- Witness for the amended C6 on a concrete valid query. -/
theorem validator_idempotent_witness :
    validateFields cSchema 5000 100 validQuery = .ok (validQuery, []) :=
  validator_idempotent cSchema 5000 100 validQuery 10 (by decide) (by decide)
    (by decide) (by simp [validQuery]) rfl (by decide)

/-- C2: a raw output on which strict parsing fails gets exactly one
mechanical container repair and one re-parse; if the re-parse also fails
the result is `MalformedQuery` carrying the raw text; a received
response is never classified as retryable, so the generator's bounded
retry loop makes no further call after any received response. -/
theorem malformed_single_repair_no_retry :
    (∀ (parse : String → Option StructuredQuery) (raw : String),
      parse raw = none → parse (repairContainer raw) = none →
      parseAndRepair parse repairContainer raw =
        .error (.MalformedQuery raw)) ∧
    (∀ (parse : String → Option StructuredQuery) (raw : String)
      (q : StructuredQuery),
      parse raw = none → parse (repairContainer raw) = some q →
      parseAndRepair parse repairContainer raw = .ok q) ∧
    (∀ raw, retryableOutcome (.received raw) = false) ∧
    (∀ (backend : Nat → GenOutcome) (raw : String) (fuel : Nat),
      backend 0 = .received raw →
      generateWithRetry backend (fuel + 1) 0 = some (raw, 1)) := by
  refine ⟨?_, ?_, ?_, ?_⟩
  · intro parse raw h1 h2
    simp [parseAndRepair, h1, h2]
  · intro parse raw q h1 h2
    simp [parseAndRepair, h1, h2]
  · intro raw
    rfl
  · intro backend raw fuel h
    simp [generateWithRetry, h]

/-- Scenario B raw model output: field lists with no valid container. -/
def scenarioBRaw : String :=
  "measures: [fact_issues.throughput] dimensions: [fact_issues.project_name]"

/-- A strict parser that accepts nothing, mocking Scenario B where both
the raw text and its repaired form fail to parse. -/
def noneParser : String → Option StructuredQuery :=
  fun _ => none

/-- Witness for C2 on Scenario B: the malformed text is rejected with
`MalformedQuery` carrying the raw text, and a backend whose first call
returns it makes exactly one call, with no retry. -/
theorem malformed_single_repair_no_retry_witness :
    parseAndRepair noneParser repairContainer scenarioBRaw =
      .error (.MalformedQuery scenarioBRaw) ∧
    retryableOutcome (.received scenarioBRaw) = false ∧
    generateWithRetry (fun _ => .received scenarioBRaw) (2 + 1) 0 =
      some (scenarioBRaw, 1) :=
  ⟨malformed_single_repair_no_retry.1 noneParser scenarioBRaw rfl rfl,
   malformed_single_repair_no_retry.2.2.1 scenarioBRaw,
   malformed_single_repair_no_retry.2.2.2
     (fun _ => .received scenarioBRaw) scenarioBRaw 2 rfl⟩

/-- C4: an `ExecutionRejected` first outcome triggers exactly one
regeneration with the rejection reason fed back; a successful second
attempt is returned without surfacing the first failure; any second
failure is surfaced as is; at most two pipeline runs ever happen; and a
timeout (or success) never triggers a regeneration. -/
theorem executor_single_regeneration (attempt : Option String → ExecResult) :
    (∀ reason data, attempt none = .rejected reason →
      attempt (some reason) = .rows data →
      runWithRegeneration attempt = (.rows data, 2)) ∧
    (∀ reason r2, attempt none = .rejected reason →
      attempt (some reason) = r2 →
      runWithRegeneration attempt = (r2, 2)) ∧
    (runWithRegeneration attempt).2 ≤ 2 ∧
    (attempt none = .timeout →
      runWithRegeneration attempt = (.timeout, 1)) ∧
    (∀ data, attempt none = .rows data →
      runWithRegeneration attempt = (.rows data, 1)) := by
  refine ⟨?_, ?_, ?_, ?_, ?_⟩
  · intro reason data h1 h2
    simp [runWithRegeneration, h1, h2]
  · intro reason r2 h1 h2
    simp [runWithRegeneration, h1, h2]
  · cases h : attempt none <;> simp [runWithRegeneration, h]
  · intro h
    simp [runWithRegeneration, h]
  · intro data h
    simp [runWithRegeneration, h]

/-- Scenario D pipeline: the first run hits a semantic-layer rejection
for an incompatible measure/dimension pair; the regenerated run
succeeds with one row. -/
def scenarioDAttempt : Option String → ExecResult
  | none => .rejected "incompatible measure and dimension pair"
  | some _ => .rows [["42"]]

/-- Witness for C4 on Scenario D: the second attempt's rows are returned
after exactly two pipeline runs. -/
theorem executor_single_regeneration_witness :
    runWithRegeneration scenarioDAttempt = (.rows [["42"]], 2) :=
  (executor_single_regeneration scenarioDAttempt).1
    "incompatible measure and dimension pair" [["42"]] rfl rfl

/-- C5: rendering an empty row set yields exactly the no-results
statement naming the query intent — in particular a non-empty string,
with no failure — and rendering is deterministic in its inputs. -/
theorem render_empty_rows_no_results (question : String)
    (q : StructuredQuery) :
    render question q [] = "No results for " ++ describeIntent q ++ "." ∧
    render question q [] ≠ "" ∧
    (∀ rows, render question q rows = render question q rows) := by
  refine ⟨rfl, ?_, fun rows => rfl⟩
  intro hc
  have h := congrArg String.length hc
  rw [show render question q [] =
    "No results for " ++ describeIntent q ++ "." from rfl] at h
  rw [String.length_append, String.length_append] at h
  have h1 : "No results for ".length = 15 := rfl
  have h2 : ".".length = 1 := rfl
  have h3 : "".length = 0 := rfl
  rw [h1, h2, h3] at h
  omega

/-- C3: for a non-empty question and positive `k`, `retrieve` returns at
most `k` results, pairwise ordered by non-increasing score with ties in
insertion order of the Schema Index, and is deterministic — equal
inputs give equal results. -/
theorem retrieve_topk_sorted_deterministic (embed : String → List Int)
    (idx : SchemaIndex) (question : String) (k : Nat)
    (hq : question ≠ "") (hk : 0 < k) :
    (retrieve embed idx question k).length ≤ k ∧
    List.Pairwise
      (fun a b => b.score ≤ a.score ∧ (b.score = a.score → a.pos ≤ b.pos))
      (retrieve embed idx question k) ∧
    retrieve embed idx question k = retrieve embed idx question k := by
  refine ⟨?_, ?_, rfl⟩
  · unfold retrieve
    exact List.length_take_le k _
  · unfold retrieve
    have hs : List.Sorted rankBefore
        (List.insertionSort rankBefore (scoreCandidates embed question idx)) :=
      List.sorted_insertionSort rankBefore _
    have hsub : List.Sublist
        ((List.insertionSort rankBefore
          (scoreCandidates embed question idx)).take k)
        (List.insertionSort rankBefore (scoreCandidates embed question idx)) :=
      List.take_sublist k _
    refine (hs.sublist hsub).imp ?_
    intro a b hab
    unfold rankBefore at hab
    exact ⟨by omega, fun h => by omega⟩

/-- Concrete Schema Index for the C3 witness: two fields and one worked
example. -/
def wIndex : SchemaIndex :=
  { fields :=
      [{ name := "fact_issues.throughput", kind := .measure,
         entity := "fact_issues", title := "Throughput",
         description := "Number of resolved issues" },
       { name := "fact_issues.project_name", kind := .dimension,
         entity := "fact_issues", title := "Project",
         description := "Project name" }]
    examples := [{ question := "How many issues per project?",
                   query := validQuery }] }

/-- Concrete embedding backend for the C3 witness. -/
def wEmbed : String → List Int :=
  fun s => [Int.ofNat s.length, 1]

/-- Witness for C3 at a concrete question, index and `k = 2`. -/
theorem retrieve_topk_sorted_deterministic_witness :
    (retrieve wEmbed wIndex "How many tasks per project?" 2).length ≤ 2 ∧
    List.Pairwise
      (fun a b => b.score ≤ a.score ∧ (b.score = a.score → a.pos ≤ b.pos))
      (retrieve wEmbed wIndex "How many tasks per project?" 2) ∧
    retrieve wEmbed wIndex "How many tasks per project?" 2 =
      retrieve wEmbed wIndex "How many tasks per project?" 2 :=
  retrieve_topk_sorted_deterministic wEmbed wIndex
    "How many tasks per project?" 2 (by decide) (by decide)

/-- Strings survive the wire trip through a JSON string array. -/
lemma mapOption_asString_strs (l : List String) :
    mapOption asString (l.map Json.str) = some l := by
  induction l with
  | nil => rfl
  | cons x xs ih => simp [mapOption, asString, ih]

/-- A time dimension survives the wire trip. -/
lemma parseTimeDimension_serialize (t : TimeDimension) :
    parseTimeDimension (serializeTimeDimension t) = some t := rfl

/-- A time-dimension list survives the wire trip. -/
lemma mapOption_parseTimeDimension (l : List TimeDimension) :
    mapOption parseTimeDimension (l.map serializeTimeDimension) = some l := by
  induction l with
  | nil => rfl
  | cons x xs ih => simp [mapOption, parseTimeDimension_serialize, ih]

/-- A filter survives the wire trip. -/
lemma parseFilter_serialize (f : Filter) :
    parseFilter (serializeFilter f) = some f := by
  cases f with
  | mk m o vs =>
      simp [parseFilter, serializeFilter, jLookup, List.find?,
        mapOption_asString_strs]

/-- A filter list survives the wire trip. -/
lemma mapOption_parseFilter (l : List Filter) :
    mapOption parseFilter (l.map serializeFilter) = some l := by
  induction l with
  | nil => rfl
  | cons x xs ih => simp [mapOption, parseFilter_serialize, ih]

/-- Order pairs survive the wire trip through the order object. -/
lemma mapOption_parseOrderEntry (l : List (String × String)) :
    mapOption parseOrderEntry (l.map (fun p => (p.1, Json.str p.2))) =
      some l := by
  induction l with
  | nil => rfl
  | cons x xs ih => simp [mapOption, parseOrderEntry, ih]

/-- Exact round-trip: parsing the serialized wire object returns the
original StructuredQuery. -/
lemma parseWire_serializeQuery (q : StructuredQuery) :
    parseWire (serializeQuery q) = some q := by
  obtain ⟨ms, ds, tds, fls, ord, lim⟩ := q
  cases tds <;> cases fls <;> cases ord <;> cases lim <;>
    simp [parseWire, serializeQuery, mandatoryEntries, tdEntries,
      filterEntries, orderEntries, limitEntries, jLookup, List.find?,
      asStringList, parseTimeDimensionList, parseFilterList, parseOrder,
      parseLimit, mapOption, parseTimeDimension_serialize,
      parseFilter_serialize, parseOrderEntry, mapOption_asString_strs,
      mapOption_parseTimeDimension, mapOption_parseFilter,
      mapOption_parseOrderEntry]

/-- C7: serializing a StructuredQuery to the semantic-layer wire shape
and parsing the wire object back yields an equivalent query — identical
order and limit, set-valued parts equal up to permutation. -/
theorem wire_roundtrip (q : StructuredQuery) :
    ∃ q', parseWire (serializeQuery q) = some q' ∧ equivQuery q q' :=
  ⟨q, parseWire_serializeQuery q,
   List.Perm.refl _, List.Perm.refl _, List.Perm.refl _, List.Perm.refl _,
   rfl, rfl⟩

/-- Witness for C10 on the one-row concrete database. -/
theorem fact_status_changes_sound_witness :
    (∃ h, h ∈ witnessHist ∧ h.field_name = "status" ∧
      (∃ ov, h.old_value = some ov ∧ ov ≠ "" ∧ ov.data.all Char.isDigit) ∧
      (∃ nv, h.new_value = some nv ∧ nv ≠ "" ∧ nv.data.all Char.isDigit) ∧
      changeRowOf witnessIssues witnessProjects witnessStatuses h =
        some witnessChangeRow) ∧
    (witnessChangeRow.is_reopen = some true ↔
      witnessChangeRow.old_status_category = some "done" ∧
      ∃ c, witnessChangeRow.new_status_category = some c ∧ c ≠ "done") :=
  fact_status_changes_sound witnessHist witnessIssues witnessProjects
    witnessStatuses witnessChangeRow (by decide)

end SemanticAgent
